import Mathlib

/-!
# weather_forecast: postal code to temperature pipeline

A shallow embedding of `internal/handlers/handler.go`, `internal/services/weather.go`
and `internal/models/models.go`, followed by the properties proved about it.

Layout: Go runtime values (errors, float64, regexp, JSON decoding), the models,
the two resolvers of the service, the handler, then the theorems.
-/

namespace weather_forecast

/-! ## Go runtime values -/

/-- A non-nil Go `error`, identified with its message. A possibly-nil `error`
is an `Option GoError`. -/
structure GoError where
  msg : String
deriving DecidableEq, Repr

deriving instance DecidableEq for Except

/-! ### float64

IEEE 754 binary64 with round-to-nearest, ties-to-even. Finite values are carried
as the rational they denote; the two zeros are identified. Each operation rounds
its own result. The language lets a target fuse `x * y + z` into one operation
that rounds once; both evaluations are modelled, see `Float64.mulAdd`. -/

/-- The power `2 ^ k` as a rational, for any integer `k`. -/
def pow2 (k : Int) : Rat :=
  if 0 ≤ k then ((2 ^ k.toNat : Nat) : Rat) else 1 / ((2 ^ (-k).toNat : Nat) : Rat)

/-- Absolute value of a rational. -/
def absRat (q : Rat) : Rat := if q < 0 then -q else q

/-- The integer nearest to `q`, the even one of the two when `q` is half-way. -/
def roundHalfEven (q : Rat) : Int :=
  let f := Rat.floor q
  let r := q - (f : Rat)
  if r < 1 / 2 then f
  else if 1 / 2 < r then f + 1
  else if f % 2 = 0 then f else f + 1

/-- Number of halvings that bring `n` below 2, at most `fuel` of them. -/
def log2Aux : Nat → Nat → Nat
  | 0, _ => 0
  | fuel + 1, n => if n < 2 then 0 else log2Aux fuel (n / 2) + 1

/-- The floor of the binary logarithm of a positive natural number. -/
def floorLog2 (n : Nat) : Nat := log2Aux n n

/-- The floor of the binary logarithm of a positive rational `n / d`. -/
def ilog2 (q : Rat) : Int :=
  let k : Int := (floorLog2 q.num.natAbs : Int) - (floorLog2 q.den : Int)
  if pow2 k ≤ q then k else k - 1

/-- Exponent of the last place of the binary64 value nearest to `q ≠ 0`:
53 significant bits, never below the subnormal exponent `-1074`. -/
def ulpExp (q : Rat) : Int := max (ilog2 (absRat q) - 52) (-1074)

/-- A float64 value. -/
inductive Float64 where
  | finite (q : Rat)
  | inf (negative : Bool)
  | nan
deriving DecidableEq, Repr

namespace Float64

/-- Rounding of a real number to binary64; magnitudes that round to `2 ^ 1024`
or more overflow to an infinity. -/
def round (q : Rat) : Float64 :=
  if q = 0 then finite 0
  else
    let e := ulpExp q
    let v := (roundHalfEven (q / pow2 e) : Rat) * pow2 e
    if pow2 1024 ≤ absRat v then inf (decide (q < 0)) else finite v

/-- Float64 addition. -/
def add : Float64 → Float64 → Float64
  | finite a, finite b => round (a + b)
  | finite _, inf s => inf s
  | inf s, finite _ => inf s
  | inf s, inf t => if s = t then inf s else nan
  | nan, _ => nan
  | _, nan => nan

/-- Float64 multiplication. -/
def mul : Float64 → Float64 → Float64
  | finite a, finite b => round (a * b)
  | finite a, inf s => if a = 0 then nan else inf (xor s (decide (a < 0)))
  | inf s, finite b => if b = 0 then nan else inf (xor s (decide (b < 0)))
  | inf s, inf t => inf (xor s t)
  | nan, _ => nan
  | _, nan => nan

instance : Add Float64 := ⟨add⟩
instance : Mul Float64 := ⟨mul⟩

/-- Whether the value is neither an infinity nor a NaN. -/
def isFinite : Float64 → Bool
  | finite _ => true
  | _ => false

/-- Fused multiply-add: `x * y + z` with the exact product and a single
rounding. With an operand that is not finite nothing is rounded, and the result
is that of the two separate operations. -/
def fma : Float64 → Float64 → Float64 → Float64
  | finite a, finite b, finite c => round (a * b + c)
  | x, y, z => add (mul x y) z

/-- The Go expression `x*y + z` on float64 operands: on a target that fuses the
two operations (`fused`) it is `fma x y z`, otherwise the product is rounded
and then the sum. -/
def mulAdd (fused : Bool) (x y z : Float64) : Float64 :=
  if fused then fma x y z else x * y + z

/-- An integer constant converted to float64. -/
instance (n : Nat) : OfNat Float64 n := ⟨round (n : Rat)⟩

/-- A decimal constant such as `1.8` converted to float64. -/
instance : OfScientific Float64 :=
  ⟨fun m s e => round (Rat.ofScientific m s e)⟩

end Float64

/-! ### regexp

The fragment of Go's RE2 syntax used by the handler: `^`, `$` (without the `m`
flag: beginning and end of the text), the Perl class `\d` (ASCII digits only),
concatenation and counted repetition. -/

/-- Regular expressions of the fragment. -/
inductive Regexp where
  | beginText
  | endText
  | digit
  | cat (r s : Regexp)
  | rep (r : Regexp) (n : Nat)
deriving Repr

/-- The characters matched by `\d`: `0` to `9`. -/
def isASCIIDigit (c : Char) : Bool := decide ('0' ≤ c) && decide (c ≤ '9')

/-- Iterate a one-step matcher `n` times from position `i`. -/
def iterEnds (step : Nat → List Nat) : Nat → Nat → List Nat
  | 0, i => [i]
  | n + 1, i => (step i).flatMap (iterEnds step n)

/-- All positions `j` such that `r` matches the text `s` from position `i` up to `j`. -/
def Regexp.ends (s : List Char) : Regexp → Nat → List Nat
  | .beginText, i => if i = 0 then [i] else []
  | .endText, i => if i = s.length then [i] else []
  | .digit, i =>
    match s[i]? with
    | some c => if isASCIIDigit c then [i + 1] else []
    | none => []
  | .cat r t, i => (r.ends s i).flatMap (t.ends s)
  | .rep r n, i => iterEnds (r.ends s) n i

/-- The method `(*Regexp).MatchString`: whether the text contains any match of the
expression. -/
def Regexp.MatchString (re : Regexp) (s : String) : Bool :=
  (List.range (s.length + 1)).any fun i => !(re.ends s.data i).isEmpty

/-- The variable `cepRegex`, compiled from the pattern `^\d{8}$`, handler.go:12. -/
def cepRegex : Regexp :=
  .cat .beginText (.cat (.rep .digit 8) .endText)

/-! ### encoding/json

A JSON document as a tree, and the struct-directed decoding of
`json.NewDecoder(body).Decode(&v)` for the field types the models use. -/

/-- A JSON value; a number carries the value of its literal. -/
inductive Json where
  | null
  | bool (b : Bool)
  | num (q : Rat)
  | str (s : String)
  | arr (items : List Json)
  | obj (members : List (String × Json))

/-- The body of an HTTP response as the decoder reads it: either the stream
starts with a JSON value, or it does not (empty or ill-formed text) and the
decoder reports the error `err`. -/
inductive Body where
  | malformed (err : GoError)
  | json (v : Json)

/-- Object keys are matched to struct field names up to letter case. -/
def foldName (s : String) : String := ⟨s.data.map Char.toUpper⟩

/-- Whether the object key `key` designates the struct field tagged `field`. -/
def nameMatches (field key : String) : Bool := foldName key == foldName field

/-- Decode the members of a JSON object into a struct, in order; `setField`
decodes one member into the field it designates, if any. A value that does not
fit its field makes the decoding fail. -/
def decodeMembers {T : Type} (setField : String → Json → T → Except GoError T) :
    List (String × Json) → T → Except GoError T
  | [], t => .ok t
  | (k, v) :: rest, t =>
    match setField k v t with
    | .error e => .error e
    | .ok t1 => decodeMembers setField rest t1

/-- Decode into a `string` field: `null` leaves it as it is. -/
def decodeString (v : Json) (cur : String) : Except GoError String :=
  match v with
  | .null => .ok cur
  | .str s => .ok s
  | _ => .error ⟨"json: cannot unmarshal into Go value of type string"⟩

/-- Decode into a `bool` field: `null` leaves it as it is. -/
def decodeBool (v : Json) (cur : Bool) : Except GoError Bool :=
  match v with
  | .null => .ok cur
  | .bool b => .ok b
  | _ => .error ⟨"json: cannot unmarshal into Go value of type bool"⟩

/-- Decode into a `float64` field: `null` leaves it as it is, a number is
rounded to float64 and rejected when out of range. -/
def decodeFloat64 (v : Json) (cur : Float64) : Except GoError Float64 :=
  match v with
  | .null => .ok cur
  | .num q =>
    match Float64.round q with
    | .finite r => .ok (.finite r)
    | _ => .error ⟨"json: cannot unmarshal number into Go value of type float64"⟩
  | _ => .error ⟨"json: cannot unmarshal into Go value of type float64"⟩

/-! ### Library functions taken as parameters -/

/-- The functions of `fmt`, `net/url` and `os` the service calls. -/
structure Runtime where
  /-- The function `fmt.Sprintf(format, args...)` on string arguments. -/
  Sprintf : String → List String → String
  /-- The function `url.QueryEscape`. -/
  QueryEscape : String → String
  /-- The function `os.Getenv`. -/
  Getenv : String → String

/-- An `*http.Response`, reduced to the parts a caller can observe here. -/
structure Response where
  StatusCode : Int
  Body : Body

/-! ## internal/models -/

namespace models

/-- The struct `WeatherResponse`, models.go:3-7. -/
structure WeatherResponse where
  TempC : Float64
  TempF : Float64
  TempK : Float64
deriving DecidableEq, Repr

/-- The struct `ErrorResponse`, models.go:9-11. -/
structure ErrorResponse where
  Message : String
deriving DecidableEq, Repr

/-- The struct `ViaCepResponse`, models.go:13-16. The Go type of `Erro` is the
parameter `E`: models.go declares it `bool`, while `GetCityByCEP` compares the
field with the string `"true"` and weather_test.go assigns it a string. -/
structure ViaCepResponse (E : Type) where
  Localidade : String
  Erro : E
deriving DecidableEq

/-- The anonymous struct of the field `Current`, models.go:19-21. -/
structure Current where
  TempC : Float64
deriving DecidableEq, Repr

/-- The struct `WeatherAPIResponse`, models.go:18-22. -/
structure WeatherAPIResponse where
  Current : Current
deriving DecidableEq, Repr

end models

/-! ## internal/services -/

namespace services

open models

/-- What the code needs of the Go type of `ViaCepResponse.Erro`: its zero
value, how a JSON value decodes into it, and the test `data.Erro == "true"`. -/
structure ErroField (E : Type) where
  zero : E
  decode : Json → E → Except GoError E
  isTrue : E → Bool

/-- The field as a `string`, the type in which `data.Erro == "true"` is a
string comparison. -/
def erroString : ErroField String :=
  ⟨"", decodeString, fun s => s == "true"⟩

/-- The field as the `bool` of models.go, the test read as "the flag is true". -/
def erroBool : ErroField Bool :=
  ⟨false, decodeBool, fun b => b⟩

/-- One member of a JSON object decoded into a `ViaCepResponse`. -/
def setViaCepField {E : Type} (F : ErroField E) (k : String) (v : Json)
    (d : ViaCepResponse E) : Except GoError (ViaCepResponse E) :=
  if nameMatches "localidade" k then
    match decodeString v d.Localidade with
    | .error e => .error e
    | .ok s => .ok { d with Localidade := s }
  else if nameMatches "erro" k then
    match F.decode v d.Erro with
    | .error e => .error e
    | .ok x => .ok { d with Erro := x }
  else .ok d

/-- The call `json.NewDecoder(resp.Body).Decode(&data)` for a `ViaCepResponse`. -/
def decodeViaCepResponse {E : Type} (F : ErroField E) (b : Body)
    (d : ViaCepResponse E) : Except GoError (ViaCepResponse E) :=
  match b with
  | .malformed err => .error err
  | .json .null => .ok d
  | .json (.obj ms) => decodeMembers (setViaCepField F) ms d
  | .json _ => .error ⟨"json: cannot unmarshal into Go value of type models.ViaCepResponse"⟩

/-- One member of a JSON object decoded into the struct of `Current`. -/
def setCurrentField (k : String) (v : Json) (c : Current) : Except GoError Current :=
  if nameMatches "temp_c" k then
    match decodeFloat64 v c.TempC with
    | .error e => .error e
    | .ok t => .ok { c with TempC := t }
  else .ok c

/-- A JSON value decoded into the struct of `Current`. -/
def decodeCurrent (v : Json) (c : Current) : Except GoError Current :=
  match v with
  | .null => .ok c
  | .obj ms => decodeMembers setCurrentField ms c
  | _ => .error ⟨"json: cannot unmarshal into Go struct field WeatherAPIResponse.current"⟩

/-- One member of a JSON object decoded into a `WeatherAPIResponse`. -/
def setWeatherField (k : String) (v : Json) (d : WeatherAPIResponse) :
    Except GoError WeatherAPIResponse :=
  if nameMatches "current" k then
    match decodeCurrent v d.Current with
    | .error e => .error e
    | .ok c => .ok { d with Current := c }
  else .ok d

/-- The call `json.NewDecoder(resp.Body).Decode(&data)` for a `WeatherAPIResponse`. -/
def decodeWeatherAPIResponse (b : Body) (d : WeatherAPIResponse) :
    Except GoError WeatherAPIResponse :=
  match b with
  | .malformed err => .error err
  | .json .null => .ok d
  | .json (.obj ms) => decodeMembers setWeatherField ms d
  | .json _ => .error ⟨"json: cannot unmarshal into Go value of type models.WeatherAPIResponse"⟩

/-- The interface `HTTPClient`, weather.go:13-16. `Get` returns the Go pair
`(*http.Response, error)`, either of which may be nil. -/
structure HTTPClient where
  Get : String → Option Response × Option GoError

/-- The interface `WeatherForecast`, weather.go:18-21. Each method returns its
Go pair of results, or `none` when the call panics. -/
structure WeatherForecast where
  GetCityByCEP : String → Option (String × Option GoError)
  GetWeather : String → Option (Float64 × Option GoError)

/-- The struct `weatherForecast`, weather.go:23-27. -/
structure weatherForecast where
  httpClient : HTTPClient
  viaCepURL : String
  weatherURL : String

/-- The constructor `NewWeatherForecast`, weather.go:29-36, with the HTTP client
`&http.Client{}` as a parameter. -/
def NewWeatherForecast (client : HTTPClient) : weatherForecast :=
  { httpClient := client
    viaCepURL := "https://viacep.com.br/ws/%s/json/"
    weatherURL := "http://api.weatherapi.com/v1/current.json?key=%s&q=%s&lang=pt" }

/-- The method `GetCityByCEP`, weather.go:38-56. -/
def GetCityByCEP {E : Type} (rt : Runtime) (F : ErroField E) (wf : weatherForecast)
    (cep : String) : Option (String × Option GoError) :=
  let url := rt.Sprintf wf.viaCepURL [cep]
  match wf.httpClient.Get url with
  | (_, some err) => some ("", some err)
  | (none, none) => none -- resp.Body on a nil response
  | (some resp, none) =>
    match decodeViaCepResponse F resp.Body ⟨"", F.zero⟩ with
    | .error err => some ("", some err)
    | .ok data =>
      if F.isTrue data.Erro || data.Localidade == "" then
        some ("", some ⟨"not found"⟩)
      else
        some (data.Localidade, none)

/-- The method `GetWeather`, weather.go:58-75. -/
def GetWeather (rt : Runtime) (wf : weatherForecast) (city : String) :
    Option (Float64 × Option GoError) :=
  let apiKey := rt.Getenv "WEATHER_API_KEY"
  let encodedCity := rt.QueryEscape city
  let weatherURL := rt.Sprintf wf.weatherURL [apiKey, encodedCity]
  match wf.httpClient.Get weatherURL with
  | (_, some err) => some (0, some err)
  | (none, none) => none -- resp.Body on a nil response
  | (some resp, none) =>
    match decodeWeatherAPIResponse resp.Body ⟨⟨0⟩⟩ with
    | .error err => some (0, some err)
    | .ok data => some (data.Current.TempC, none)

/-- The struct `weatherForecast` as a value of the interface `WeatherForecast`. -/
def weatherForecast.asInterface {E : Type} (rt : Runtime) (F : ErroField E)
    (wf : weatherForecast) : WeatherForecast :=
  { GetCityByCEP := GetCityByCEP rt F wf
    GetWeather := GetWeather rt wf }

end services

/-! ## internal/handlers -/

namespace handlers

open models services

/-- A call the handler makes on its service. -/
inductive Call where
  | GetCityByCEP (cep : String)
  | GetWeather (city : String)
deriving DecidableEq, Repr

/-- What the response writer receives after the status line: a value encoded
by `json.NewEncoder(w).Encode`, the text of `http.Error`, or nothing. -/
inductive Payload where
  | error (e : ErrorResponse)
  | weather (r : WeatherResponse)
  | text (msg : String)
  | empty
deriving DecidableEq, Repr

/-- A response as written by the handler. -/
structure Reply where
  status : Nat
  payload : Payload
deriving DecidableEq, Repr

/-- A run of the handler: the service calls it made, in order, and the response
it wrote, `none` when a service call panicked. -/
structure Outcome where
  calls : List Call
  reply : Option Reply
deriving DecidableEq, Repr

/-- The status `http.StatusOK`. -/
def StatusOK : Nat := 200
/-- The status `http.StatusNotFound`. -/
def StatusNotFound : Nat := 404
/-- The status `http.StatusUnprocessableEntity`. -/
def StatusUnprocessableEntity : Nat := 422
/-- The status `http.StatusInternalServerError`. -/
def StatusInternalServerError : Nat := 500

/-- The function `http.Error(w, msg, code)`: a plain-text reply. -/
def httpError (msg : String) (code : Nat) : Reply := ⟨code, .text msg⟩

/-- The call `json.NewEncoder(w).Encode(resp)` for a `WeatherResponse`,
handler.go:56: the encoder refuses a field that is an infinity or a NaN and
then writes nothing; the handler drops the error it returns. -/
def encodeWeather (resp : WeatherResponse) : Payload :=
  if resp.TempC.isFinite && resp.TempF.isFinite && resp.TempK.isFinite then .weather resp
  else .empty

/-- The method `WeatherHandler`, handler.go:27-57, on the value `cep` of the
query parameter; `fused` tells whether the target evaluates `tempC*1.8 + 32` as
one fused operation. -/
def WeatherHandler (fused : Bool) (swf : WeatherForecast) (cep : String) : Outcome :=
  if !cepRegex.MatchString cep then
    ⟨[], some ⟨StatusUnprocessableEntity, .error ⟨"invalid zipcode"⟩⟩⟩
  else
    match swf.GetCityByCEP cep with
    | none => ⟨[.GetCityByCEP cep], none⟩
    | some (_, some _) =>
      ⟨[.GetCityByCEP cep], some ⟨StatusNotFound, .error ⟨"can not find zipcode"⟩⟩⟩
    | some (city, none) =>
      match swf.GetWeather city with
      | none => ⟨[.GetCityByCEP cep, .GetWeather city], none⟩
      | some (_, some _) =>
        ⟨[.GetCityByCEP cep, .GetWeather city],
          some (httpError "failed to fetch weather" StatusInternalServerError)⟩
      | some (tempC, none) =>
        let resp : WeatherResponse :=
          { TempC := tempC
            TempF := Float64.mulAdd fused tempC 1.8 32
            TempK := tempC + 273 }
        ⟨[.GetCityByCEP cep, .GetWeather city], some ⟨StatusOK, encodeWeather resp⟩⟩

end handlers

/-! ## Vocabulary of the specification -/

/-- A valid postal code in the words of the specification: exactly 8
characters, all of them ASCII digits `0` to `9`. -/
def ValidPostalCode (cep : String) : Prop :=
  cep.length = 8 ∧ ∀ c, c ∈ cep.data → '0' ≤ c ∧ c ≤ '9'

instance (cep : String) : Decidable (ValidPostalCode cep) := by
  unfold ValidPostalCode
  exact inferInstance

/-- Whether a JSON document has a member `temp_c` nested in a member `current`,
names being matched as the decoder matches them. -/
def hasCurrentTempC : Json → Bool
  | .obj ms => ms.any fun m =>
      nameMatches "current" m.1 &&
        match m.2 with
        | .obj cs => cs.any fun c => nameMatches "temp_c" c.1
        | _ => false
  | _ => false

/-! ## Test doubles, after handler_test.go and weather_test.go -/

namespace fixtures

open services

/-- The type `mockHTTPClient`, weather_test.go:14-23, answering every request with `r`. -/
def mockHTTPClient (r : Option Response × Option GoError) : HTTPClient :=
  ⟨fun _ => r⟩

/-- The helper `createMockResponse`, weather_test.go:25-32. -/
def createMockResponse (statusCode : Int) (body : Json) : Response :=
  ⟨statusCode, .json body⟩

/-- The type `mockWeatherService`, handler_test.go:12-29, with constant answers. -/
def mockWeatherService (city : String × Option GoError)
    (weather : Float64 × Option GoError) : WeatherForecast :=
  { GetCityByCEP := fun _ => some city
    GetWeather := fun _ => some weather }

/-- Substitution of string arguments for the verbs `%s` of a format. -/
def sprintfChars : List Char → List String → List Char
  | [], _ => []
  | '%' :: 's' :: rest, a :: args => a.data ++ sprintfChars rest args
  | c :: rest, args => c :: sprintfChars rest args

/-- Upper-case hexadecimal digit. -/
def hexDigit (n : Nat) : Char :=
  if n < 10 then Char.ofNat (48 + n) else Char.ofNat (55 + n)

/-- Query escaping of one character: unreserved characters are kept, a space
becomes `+`, any other character is the percent-encoding of its UTF-8 bytes. -/
def escapeChar (c : Char) : List Char :=
  if c.isAlphanum || c == '-' || c == '_' || c == '.' || c == '~' then [c]
  else if c == ' ' then ['+']
  else (String.utf8EncodeChar c).flatMap fun b =>
    ['%', hexDigit (b.toNat / 16), hexDigit (b.toNat % 16)]

/-- A runtime for the examples: `%s` substitution, query escaping, and an
environment holding the API key of the tests. -/
def testRuntime : Runtime :=
  { Sprintf := fun format args => ⟨sprintfChars format.data args⟩
    QueryEscape := fun s => ⟨s.data.flatMap escapeChar⟩
    Getenv := fun k => if k == "WEATHER_API_KEY" then "test-api-key" else "" }

/-- The service of the tests: the production URLs over a mock HTTP client, the
flag field read as a string. -/
def testService (r : Option Response × Option GoError) : WeatherForecast :=
  (NewWeatherForecast (mockHTTPClient r)).asInterface testRuntime erroString

end fixtures


/-! ## Properties of the regular expression -/

theorem mem_ends_digit (s : List Char) (i j : Nat) :
    j ∈ Regexp.ends s .digit i ↔ j = i + 1 ∧ ∃ c, s[i]? = some c ∧ isASCIIDigit c = true := by
  unfold Regexp.ends
  cases hget : s[i]? with
  | none => simp
  | some c =>
    by_cases hd : isASCIIDigit c = true
    · simp [hd]
    · simp [hd]

theorem mem_iterEnds (step : Nat → List Nat) (P : Nat → Prop)
    (hstep : ∀ i j, j ∈ step i ↔ j = i + 1 ∧ P i) (n i j : Nat) :
    j ∈ iterEnds step n i ↔ j = i + n ∧ ∀ k, k < n → P (i + k) := by
  induction n generalizing i with
  | zero =>
    simp only [iterEnds, List.mem_singleton, Nat.add_zero]
    constructor
    · intro h; exact ⟨h, fun k hk => absurd hk (Nat.not_lt_zero k)⟩
    · intro h; exact h.1
  | succ n ih =>
    simp only [iterEnds, List.mem_flatMap, ih, hstep]
    constructor
    · rintro ⟨a, ⟨rfl, hP⟩, rfl, hk⟩
      refine ⟨by omega, ?_⟩
      intro k hk1
      cases k with
      | zero => exact hP
      | succ k =>
        have := hk k (by omega)
        have e : i + 1 + k = i + (k + 1) := by omega
        rwa [e] at this
    · rintro ⟨rfl, hk⟩
      refine ⟨i + 1, ⟨rfl, hk 0 (by omega)⟩, by omega, ?_⟩
      intro k hk1
      have := hk (k + 1) (by omega)
      have e : i + 1 + k = i + (k + 1) := by omega
      rwa [e]

theorem ends_cat (s : List Char) (r t : Regexp) (i : Nat) :
    Regexp.ends s (.cat r t) i = (r.ends s i).flatMap (t.ends s) := rfl

theorem ends_rep (s : List Char) (r : Regexp) (n i : Nat) :
    Regexp.ends s (.rep r n) i = iterEnds (r.ends s) n i := rfl

theorem mem_ends_beginText (s : List Char) (i j : Nat) :
    j ∈ Regexp.ends s .beginText i ↔ i = 0 ∧ j = i := by
  unfold Regexp.ends
  by_cases h : i = 0 <;> simp [h]

theorem mem_ends_endText (s : List Char) (i j : Nat) :
    j ∈ Regexp.ends s .endText i ↔ i = s.length ∧ j = i := by
  unfold Regexp.ends
  by_cases h : i = s.length <;> simp [h]

theorem mem_ends_cepRegex (s : List Char) (i j : Nat) :
    j ∈ cepRegex.ends s i ↔
      i = 0 ∧ j = 8 ∧ s.length = 8 ∧ ∀ c, c ∈ s → isASCIIDigit c = true := by
  unfold cepRegex
  simp only [ends_cat, ends_rep, List.mem_flatMap, mem_ends_beginText, mem_ends_endText,
    mem_iterEnds _ _ (mem_ends_digit s)]
  constructor
  · rintro ⟨a, ⟨rfl, rfl⟩, b, ⟨rfl, hk⟩, hlen, rfl⟩
    refine ⟨rfl, by omega, by omega, ?_⟩
    intro c hc
    obtain ⟨k, hk1, hk2⟩ := List.getElem_of_mem hc
    obtain ⟨c1, h1, h2⟩ := hk k (by omega)
    simp only [Nat.zero_add] at h1
    rw [List.getElem?_eq_getElem hk1] at h1
    simp only [Option.some.injEq] at h1
    rw [← hk2, h1]; exact h2
  · rintro ⟨rfl, rfl, hlen, hall⟩
    refine ⟨0, ⟨rfl, rfl⟩, 8, ⟨by omega, ?_⟩, by omega, rfl⟩
    intro k hk
    have hk1 : 0 + k < s.length := by omega
    exact ⟨s[0 + k], List.getElem?_eq_getElem hk1, hall _ (List.getElem_mem _)⟩

theorem cepRegex_matchString_iff (cep : String) :
    cepRegex.MatchString cep = true ↔
      cep.length = 8 ∧ ∀ c, c ∈ cep.data → isASCIIDigit c = true := by
  simp only [Regexp.MatchString, List.any_eq_true, List.mem_range, Bool.not_eq_true',
    List.isEmpty_eq_false]
  constructor
  · rintro ⟨i, _, hne⟩
    obtain ⟨j, hj⟩ := List.exists_mem_of_ne_nil _ hne
    exact ((mem_ends_cepRegex _ _ _).mp hj).2.2
  · rintro ⟨hlen, hall⟩
    refine ⟨0, by omega, ?_⟩
    have : 8 ∈ cepRegex.ends cep.data 0 := (mem_ends_cepRegex _ _ _).mpr ⟨rfl, rfl, hlen, hall⟩
    exact List.ne_nil_of_mem this

theorem isASCIIDigit_iff (c : Char) : isASCIIDigit c = true ↔ '0' ≤ c ∧ c ≤ '9' := by
  simp [isASCIIDigit]

theorem cepRegex_matchString_iff_valid (cep : String) :
    cepRegex.MatchString cep = true ↔ ValidPostalCode cep := by
  rw [cepRegex_matchString_iff]
  unfold ValidPostalCode
  simp only [isASCIIDigit_iff]

/-! ## Equations of the handler, one for each path -/

namespace handlers

open models services

theorem WeatherHandler_invalid (fused : Bool) (swf : WeatherForecast) (cep : String)
    (h : ¬ ValidPostalCode cep) :
    WeatherHandler fused swf cep =
      ⟨[], some ⟨StatusUnprocessableEntity, .error ⟨"invalid zipcode"⟩⟩⟩ := by
  have hm : cepRegex.MatchString cep = false := by
    rw [← Bool.not_eq_true, cepRegex_matchString_iff_valid]; exact h
  simp [WeatherHandler, hm]

theorem WeatherHandler_cityPanic (fused : Bool) (swf : WeatherForecast) (cep : String)
    (h : ValidPostalCode cep) (hc : swf.GetCityByCEP cep = none) :
    WeatherHandler fused swf cep = ⟨[.GetCityByCEP cep], none⟩ := by
  have hm := (cepRegex_matchString_iff_valid cep).mpr h
  simp [WeatherHandler, hm, hc]

theorem WeatherHandler_cityError (fused : Bool) (swf : WeatherForecast) (cep city : String) (e : GoError)
    (h : ValidPostalCode cep) (hc : swf.GetCityByCEP cep = some (city, some e)) :
    WeatherHandler fused swf cep =
      ⟨[.GetCityByCEP cep], some ⟨StatusNotFound, .error ⟨"can not find zipcode"⟩⟩⟩ := by
  have hm := (cepRegex_matchString_iff_valid cep).mpr h
  simp [WeatherHandler, hm, hc]

theorem WeatherHandler_weatherPanic (fused : Bool) (swf : WeatherForecast) (cep city : String)
    (h : ValidPostalCode cep) (hc : swf.GetCityByCEP cep = some (city, none))
    (hw : swf.GetWeather city = none) :
    WeatherHandler fused swf cep = ⟨[.GetCityByCEP cep, .GetWeather city], none⟩ := by
  have hm := (cepRegex_matchString_iff_valid cep).mpr h
  simp [WeatherHandler, hm, hc, hw]

theorem WeatherHandler_weatherError (fused : Bool) (swf : WeatherForecast) (cep city : String)
    (t : Float64) (e : GoError)
    (h : ValidPostalCode cep) (hc : swf.GetCityByCEP cep = some (city, none))
    (hw : swf.GetWeather city = some (t, some e)) :
    WeatherHandler fused swf cep =
      ⟨[.GetCityByCEP cep, .GetWeather city],
        some (httpError "failed to fetch weather" StatusInternalServerError)⟩ := by
  have hm := (cepRegex_matchString_iff_valid cep).mpr h
  simp [WeatherHandler, hm, hc, hw]

theorem WeatherHandler_ok (fused : Bool) (swf : WeatherForecast) (cep city : String) (c : Float64)
    (h : ValidPostalCode cep) (hc : swf.GetCityByCEP cep = some (city, none))
    (hw : swf.GetWeather city = some (c, none)) :
    WeatherHandler fused swf cep =
      ⟨[.GetCityByCEP cep, .GetWeather city],
        some ⟨StatusOK, encodeWeather ⟨c, Float64.mulAdd fused c 1.8 32, c + 273⟩⟩⟩ := by
  have hm := (cepRegex_matchString_iff_valid cep).mpr h
  simp [WeatherHandler, hm, hc, hw]

end handlers

/-! ## Equations of the resolvers, one for each path -/

namespace services

open models

theorem GetCityByCEP_getError {E : Type} (rt : Runtime) (F : ErroField E)
    (wf : weatherForecast) (cep : String) (r : Option Response) (e : GoError)
    (hget : wf.httpClient.Get (rt.Sprintf wf.viaCepURL [cep]) = (r, some e)) :
    GetCityByCEP rt F wf cep = some ("", some e) := by
  simp [GetCityByCEP, hget]

theorem GetCityByCEP_nilResponse {E : Type} (rt : Runtime) (F : ErroField E)
    (wf : weatherForecast) (cep : String)
    (hget : wf.httpClient.Get (rt.Sprintf wf.viaCepURL [cep]) = (none, none)) :
    GetCityByCEP rt F wf cep = none := by
  simp [GetCityByCEP, hget]

theorem GetCityByCEP_decodeError {E : Type} (rt : Runtime) (F : ErroField E)
    (wf : weatherForecast) (cep : String) (resp : Response) (e : GoError)
    (hget : wf.httpClient.Get (rt.Sprintf wf.viaCepURL [cep]) = (some resp, none))
    (hdec : decodeViaCepResponse F resp.Body ⟨"", F.zero⟩ = .error e) :
    GetCityByCEP rt F wf cep = some ("", some e) := by
  simp [GetCityByCEP, hget, hdec]

theorem GetCityByCEP_notFound {E : Type} (rt : Runtime) (F : ErroField E)
    (wf : weatherForecast) (cep : String) (resp : Response) (data : ViaCepResponse E)
    (hget : wf.httpClient.Get (rt.Sprintf wf.viaCepURL [cep]) = (some resp, none))
    (hdec : decodeViaCepResponse F resp.Body ⟨"", F.zero⟩ = .ok data)
    (hnf : F.isTrue data.Erro = true ∨ data.Localidade = "") :
    GetCityByCEP rt F wf cep = some ("", some ⟨"not found"⟩) := by
  have hcond : (F.isTrue data.Erro || data.Localidade == "") = true := by
    rcases hnf with h | h
    · simp [h]
    · simp [h]
  simp only [GetCityByCEP, hget, hdec, hcond, if_true]

theorem GetCityByCEP_found {E : Type} (rt : Runtime) (F : ErroField E)
    (wf : weatherForecast) (cep : String) (resp : Response) (data : ViaCepResponse E)
    (hget : wf.httpClient.Get (rt.Sprintf wf.viaCepURL [cep]) = (some resp, none))
    (hdec : decodeViaCepResponse F resp.Body ⟨"", F.zero⟩ = .ok data)
    (hflag : F.isTrue data.Erro = false) (hloc : data.Localidade ≠ "") :
    GetCityByCEP rt F wf cep = some (data.Localidade, none) := by
  have hcond : (F.isTrue data.Erro || data.Localidade == "") = false := by
    simp [hflag, hloc]
  simp [GetCityByCEP, hget, hdec, hcond]

theorem GetWeather_getError (rt : Runtime) (wf : weatherForecast) (city : String)
    (r : Option Response) (e : GoError)
    (hget : wf.httpClient.Get
      (rt.Sprintf wf.weatherURL [rt.Getenv "WEATHER_API_KEY", rt.QueryEscape city]) =
        (r, some e)) :
    GetWeather rt wf city = some (0, some e) := by
  simp [GetWeather, hget]

theorem GetWeather_nilResponse (rt : Runtime) (wf : weatherForecast) (city : String)
    (hget : wf.httpClient.Get
      (rt.Sprintf wf.weatherURL [rt.Getenv "WEATHER_API_KEY", rt.QueryEscape city]) =
        (none, none)) :
    GetWeather rt wf city = none := by
  simp [GetWeather, hget]

theorem GetWeather_decodeError (rt : Runtime) (wf : weatherForecast) (city : String)
    (resp : Response) (e : GoError)
    (hget : wf.httpClient.Get
      (rt.Sprintf wf.weatherURL [rt.Getenv "WEATHER_API_KEY", rt.QueryEscape city]) =
        (some resp, none))
    (hdec : decodeWeatherAPIResponse resp.Body ⟨⟨0⟩⟩ = .error e) :
    GetWeather rt wf city = some (0, some e) := by
  simp [GetWeather, hget, hdec]

theorem GetWeather_decoded (rt : Runtime) (wf : weatherForecast) (city : String)
    (resp : Response) (data : WeatherAPIResponse)
    (hget : wf.httpClient.Get
      (rt.Sprintf wf.weatherURL [rt.Getenv "WEATHER_API_KEY", rt.QueryEscape city]) =
        (some resp, none))
    (hdec : decodeWeatherAPIResponse resp.Body ⟨⟨0⟩⟩ = .ok data) :
    GetWeather rt wf city = some (data.Current.TempC, none) := by
  simp [GetWeather, hget, hdec]

/-- Every result of `GetCityByCEP` that carries an error carries the empty string. -/
theorem GetCityByCEP_error_zero {E : Type} (rt : Runtime) (F : ErroField E)
    (wf : weatherForecast) (cep city : String) (e : GoError)
    (h : GetCityByCEP rt F wf cep = some (city, some e)) : city = "" := by
  rcases hget : wf.httpClient.Get (rt.Sprintf wf.viaCepURL [cep]) with ⟨r, err⟩
  cases err with
  | some e1 =>
    rw [GetCityByCEP_getError rt F wf cep r e1 hget] at h
    simp only [Option.some.injEq, Prod.mk.injEq] at h
    exact h.1.symm
  | none =>
    cases r with
    | none =>
      rw [GetCityByCEP_nilResponse rt F wf cep hget] at h
      cases h
    | some resp =>
      cases hdec : decodeViaCepResponse F resp.Body ⟨"", F.zero⟩ with
      | error e1 =>
        rw [GetCityByCEP_decodeError rt F wf cep resp e1 hget hdec] at h
        simp only [Option.some.injEq, Prod.mk.injEq] at h
        exact h.1.symm
      | ok data =>
        by_cases hnf : F.isTrue data.Erro = true ∨ data.Localidade = ""
        · rw [GetCityByCEP_notFound rt F wf cep resp data hget hdec hnf] at h
          simp only [Option.some.injEq, Prod.mk.injEq] at h
          exact h.1.symm
        · have h1 : F.isTrue data.Erro = false := by
            cases hb : F.isTrue data.Erro with
            | true => exact absurd (Or.inl hb) hnf
            | false => rfl
          have h2 : data.Localidade ≠ "" := fun hl => hnf (Or.inr hl)
          rw [GetCityByCEP_found rt F wf cep resp data hget hdec h1 h2] at h
          simp at h

/-- Every result of `GetWeather` that carries an error carries the temperature 0. -/
theorem GetWeather_error_zero (rt : Runtime) (wf : weatherForecast) (city : String)
    (t : Float64) (e : GoError)
    (h : GetWeather rt wf city = some (t, some e)) : t = 0 := by
  rcases hget : wf.httpClient.Get
    (rt.Sprintf wf.weatherURL [rt.Getenv "WEATHER_API_KEY", rt.QueryEscape city]) with ⟨r, err⟩
  cases err with
  | some e1 =>
    rw [GetWeather_getError rt wf city r e1 hget] at h
    simp only [Option.some.injEq, Prod.mk.injEq] at h
    exact h.1.symm
  | none =>
    cases r with
    | none =>
      rw [GetWeather_nilResponse rt wf city hget] at h
      cases h
    | some resp =>
      cases hdec : decodeWeatherAPIResponse resp.Body ⟨⟨0⟩⟩ with
      | error e1 =>
        rw [GetWeather_decodeError rt wf city resp e1 hget hdec] at h
        simp only [Option.some.injEq, Prod.mk.injEq] at h
        exact h.1.symm
      | ok data =>
        rw [GetWeather_decoded rt wf city resp data hget hdec] at h
        simp at h

end services

/-! ## Decoding a document in which a field is absent -/

namespace services

open models

theorem decodeMembers_unchanged {T : Type} (setField : String → Json → T → Except GoError T)
    (ms : List (String × Json)) (t t1 : T)
    (hskip : ∀ m, m ∈ ms → ∀ a b, setField m.1 m.2 a = .ok b → b = a)
    (h : decodeMembers setField ms t = .ok t1) : t1 = t := by
  induction ms generalizing t with
  | nil =>
    simp only [decodeMembers, Except.ok.injEq] at h
    exact h.symm
  | cons m rest ih =>
    obtain ⟨k, v⟩ := m
    simp only [decodeMembers] at h
    cases hs : setField k v t with
    | error e => simp [hs] at h
    | ok t2 =>
      simp only [hs] at h
      have h2 : t2 = t := hskip (k, v) (List.mem_cons_self _ _) t t2 hs
      have h3 := ih t2 (fun m hm => hskip m (List.mem_cons_of_mem _ hm)) h
      rw [h3, h2]

theorem decodeCurrent_unchanged (v : Json) (c c1 : Current)
    (habsent : ∀ cs, v = .obj cs → ∀ m, m ∈ cs → nameMatches "temp_c" m.1 = false)
    (h : decodeCurrent v c = .ok c1) : c1 = c := by
  cases v with
  | null =>
    simp only [decodeCurrent, Except.ok.injEq] at h
    exact h.symm
  | obj cs =>
    simp only [decodeCurrent] at h
    refine decodeMembers_unchanged setCurrentField cs c c1 ?_ h
    intro m hm a b hab
    have hno := habsent cs rfl m hm
    simp only [setCurrentField, hno, Bool.false_eq_true, if_false, Except.ok.injEq] at hab
    exact hab.symm
  | bool b => simp [decodeCurrent] at h
  | num q => simp [decodeCurrent] at h
  | str s => simp [decodeCurrent] at h
  | arr xs => simp [decodeCurrent] at h

theorem decodeWeatherAPIResponse_unchanged (v : Json) (d d1 : WeatherAPIResponse)
    (habsent : hasCurrentTempC v = false)
    (h : decodeWeatherAPIResponse (.json v) d = .ok d1) : d1 = d := by
  cases v with
  | null =>
    simp only [decodeWeatherAPIResponse, Except.ok.injEq] at h
    exact h.symm
  | obj ms =>
    simp only [decodeWeatherAPIResponse] at h
    simp only [hasCurrentTempC, List.any_eq_false, Bool.and_eq_true, not_and] at habsent
    refine decodeMembers_unchanged setWeatherField ms d d1 ?_ h
    intro m hm a b hab
    unfold setWeatherField at hab
    by_cases hname : nameMatches "current" m.1 = true
    · simp only [hname, if_true] at hab
      cases hdc : decodeCurrent m.2 a.Current with
      | error e => simp [hdc] at hab
      | ok c =>
        simp only [hdc, Except.ok.injEq] at hab
        have hc : c = a.Current := by
          refine decodeCurrent_unchanged m.2 a.Current c ?_ hdc
          intro cs hcs k hk
          have := habsent m hm hname
          simp only [hcs, List.any_eq_true, not_exists, not_and, Bool.not_eq_true] at this
          exact this k hk
        rw [← hab, hc]
    · have hf : nameMatches "current" m.1 = false := by
        cases hb : nameMatches "current" m.1 with
        | true => exact absurd hb hname
        | false => rfl
      simp only [hf, Bool.false_eq_true, if_false, Except.ok.injEq] at hab
      exact hab.symm
  | bool b => simp [decodeWeatherAPIResponse] at h
  | num q => simp [decodeWeatherAPIResponse] at h
  | str s => simp [decodeWeatherAPIResponse] at h
  | arr xs => simp [decodeWeatherAPIResponse] at h

theorem decodeMembers_skip {T : Type} (setField : String → Json → T → Except GoError T)
    (ms : List (String × Json)) (t : T)
    (hskip : ∀ m, m ∈ ms → ∀ a, setField m.1 m.2 a = .ok a) :
    decodeMembers setField ms t = .ok t := by
  induction ms with
  | nil => rfl
  | cons m rest ih =>
    obtain ⟨k, v⟩ := m
    simp only [decodeMembers]
    rw [hskip (k, v) (List.mem_cons_self _ _) t]
    exact ih (fun m hm => hskip m (List.mem_cons_of_mem _ hm))

theorem decodeCurrent_skip (v : Json) (c : Current)
    (h : v = .null ∨ ∃ cs, v = .obj cs ∧ ∀ m, m ∈ cs → nameMatches "temp_c" m.1 = false) :
    decodeCurrent v c = .ok c := by
  rcases h with rfl | ⟨cs, rfl, hcs⟩
  · rfl
  · simp only [decodeCurrent]
    refine decodeMembers_skip setCurrentField cs c ?_
    intro m hm a
    simp [setCurrentField, hcs m hm]

theorem decodeWeatherAPIResponse_skip (ms : List (String × Json)) (d : WeatherAPIResponse)
    (h : ∀ m, m ∈ ms → nameMatches "current" m.1 = true →
      m.2 = .null ∨ ∃ cs, m.2 = .obj cs ∧ ∀ c, c ∈ cs → nameMatches "temp_c" c.1 = false) :
    decodeWeatherAPIResponse (.json (.obj ms)) d = .ok d := by
  simp only [decodeWeatherAPIResponse]
  refine decodeMembers_skip setWeatherField ms d ?_
  intro m hm a
  unfold setWeatherField
  cases hname : nameMatches "current" m.1 with
  | false => simp
  | true =>
    simp only [if_true]
    rw [decodeCurrent_skip m.2 a.Current (h m hm hname)]

end services

namespace handlers

open services

theorem WeatherHandler_calls_of_city (fused : Bool) (swf : WeatherForecast) (cep city : String)
    (h : ValidPostalCode cep) (hc : swf.GetCityByCEP cep = some (city, none)) :
    (WeatherHandler fused swf cep).calls = [.GetCityByCEP cep, .GetWeather city] := by
  rcases hw : swf.GetWeather city with _ | ⟨t, _ | e⟩
  · rw [WeatherHandler_weatherPanic fused swf cep city h hc hw]
  · rw [WeatherHandler_ok fused swf cep city t h hc hw]
  · rw [WeatherHandler_weatherError fused swf cep city t e h hc hw]

theorem WeatherHandler_status_of_valid (fused : Bool) (swf : WeatherForecast) (cep : String)
    (h : ValidPostalCode cep) (p : Payload) :
    (WeatherHandler fused swf cep).reply ≠ some ⟨StatusUnprocessableEntity, p⟩ := by
  rcases hc : swf.GetCityByCEP cep with _ | ⟨city, _ | e⟩
  · rw [WeatherHandler_cityPanic fused swf cep h hc]; simp
  · rcases hw : swf.GetWeather city with _ | ⟨t, _ | e⟩
    · rw [WeatherHandler_weatherPanic fused swf cep city h hc hw]; simp
    · rw [WeatherHandler_ok fused swf cep city t h hc hw]
      simp [StatusOK, StatusUnprocessableEntity]
    · rw [WeatherHandler_weatherError fused swf cep city t e h hc hw]
      simp [httpError, StatusInternalServerError, StatusUnprocessableEntity]
  · rw [WeatherHandler_cityError fused swf cep city e h hc]
    simp [StatusNotFound, StatusUnprocessableEntity]

theorem encodeWeather_of_finite (r : models.WeatherResponse)
    (hC : r.TempC.isFinite = true) (hF : r.TempF.isFinite = true)
    (hK : r.TempK.isFinite = true) : encodeWeather r = .weather r := by
  simp [encodeWeather, hC, hF, hK]

end handlers

/-! ## The properties of the specification -/

section claims

open models services handlers fixtures

/-- C1, refuted as stated: for the valid postal code "01310100" and a location
service that is unreachable (the HTTP client returns the transport error
"network error", which `GetCityByCEP` returns), `WeatherHandler` answers with
status 404 and the message "can not find zipcode", the outcome of a location
that was not found, and not with status 500 and a plain-text message. -/
theorem C1_unreachable_location_not_500 :
    ValidPostalCode "01310100" ∧
    GetCityByCEP testRuntime erroString
        (NewWeatherForecast (mockHTTPClient (none, some ⟨"network error"⟩))) "01310100" =
      some ("", some ⟨"network error"⟩) ∧
    (WeatherHandler false (testService (none, some ⟨"network error"⟩)) "01310100").reply =
      some ⟨404, .error ⟨"can not find zipcode"⟩⟩ ∧
    ¬ ∃ msg, (WeatherHandler false (testService (none, some ⟨"network error"⟩)) "01310100").reply =
      some ⟨500, .text msg⟩ := by
  refine ⟨by decide, by decide, by decide, ?_⟩
  rintro ⟨msg, h⟩
  have h404 : (WeatherHandler false (testService (none, some ⟨"network error"⟩)) "01310100").reply =
      some ⟨404, .error ⟨"can not find zipcode"⟩⟩ := by decide
  rw [h404] at h
  simp at h

/-- C1, amended: for every postal code that passes validation, if the request
to the location service fails in transport (the HTTP client returns an error),
`GetCityByCEP` returns that error with an empty city, and `WeatherHandler`
answers with status 404 and the message "can not find zipcode", the same
outcome as for a location that was not found, without calling `GetWeather`. -/
theorem C1_unreachable_location_yields_404 {E : Type} (fused : Bool) (rt : Runtime)
    (F : ErroField E)
    (wf : weatherForecast) (cep : String) (r : Option Response) (e : GoError)
    (hv : ValidPostalCode cep)
    (hget : wf.httpClient.Get (rt.Sprintf wf.viaCepURL [cep]) = (r, some e)) :
    GetCityByCEP rt F wf cep = some ("", some e) ∧
    WeatherHandler fused (wf.asInterface rt F) cep =
      ⟨[.GetCityByCEP cep], some ⟨404, .error ⟨"can not find zipcode"⟩⟩⟩ := by
  have hc := GetCityByCEP_getError rt F wf cep r e hget
  exact ⟨hc, WeatherHandler_cityError fused (wf.asInterface rt F) cep "" e hv hc⟩

/-- Witness of C1, amended: the postal code "12345678" over a client failing
with "connection refused". -/
theorem C1_unreachable_location_yields_404_witness :
    ValidPostalCode "12345678" ∧
    WeatherHandler false (testService (none, some ⟨"connection refused"⟩)) "12345678" =
      ⟨[.GetCityByCEP "12345678"], some ⟨404, .error ⟨"can not find zipcode"⟩⟩⟩ :=
  ⟨by decide,
    (C1_unreachable_location_yields_404 false testRuntime erroString
      (NewWeatherForecast (mockHTTPClient (none, some ⟨"connection refused"⟩)))
      "12345678" none ⟨"connection refused"⟩ (by decide) rfl).2⟩

/-- C2: for every service and every string `cep`, `WeatherHandler` answers with
status 422 and the message "invalid zipcode" if and only if `cep` is not a
string of exactly 8 characters that are all ASCII digits. -/
theorem C2_invalid_zipcode_iff (fused : Bool) (swf : WeatherForecast) (cep : String) :
    (WeatherHandler fused swf cep).reply = some ⟨422, .error ⟨"invalid zipcode"⟩⟩ ↔
      ¬ (cep.length = 8 ∧ ∀ c, c ∈ cep.data → '0' ≤ c ∧ c ≤ '9') := by
  constructor
  · intro h hv
    exact WeatherHandler_status_of_valid fused swf cep hv _ h
  · intro hv
    rw [WeatherHandler_invalid fused swf cep hv]
    rfl

/-- C3: for every valid postal code and every location-service response that
was transported and decoded without error, if the decoded response has its
not-found flag set or an empty locality, `GetCityByCEP` returns the error
"not found" with an empty city and `WeatherHandler` answers with status 404 and
the message "can not find zipcode"; a set flag with a non-empty locality is one
such case. -/
theorem C3_flag_or_empty_locality_not_found {E : Type} (fused : Bool) (rt : Runtime)
    (F : ErroField E)
    (wf : weatherForecast) (cep : String) (resp : Response) (data : ViaCepResponse E)
    (hv : ValidPostalCode cep)
    (hget : wf.httpClient.Get (rt.Sprintf wf.viaCepURL [cep]) = (some resp, none))
    (hdec : decodeViaCepResponse F resp.Body ⟨"", F.zero⟩ = .ok data)
    (hnf : F.isTrue data.Erro = true ∨ data.Localidade = "") :
    GetCityByCEP rt F wf cep = some ("", some ⟨"not found"⟩) ∧
    (WeatherHandler fused (wf.asInterface rt F) cep).reply =
      some ⟨404, .error ⟨"can not find zipcode"⟩⟩ := by
  have hc := GetCityByCEP_notFound rt F wf cep resp data hget hdec hnf
  refine ⟨hc, ?_⟩
  rw [WeatherHandler_cityError fused (wf.asInterface rt F) cep "" ⟨"not found"⟩ hv hc]
  rfl

/-- Witness of C3: a response with status 200 whose flag is set and whose
locality is "São Paulo". -/
theorem C3_flag_or_empty_locality_not_found_witness :
    ValidPostalCode "00000000" ∧
    (WeatherHandler false (testService (some (createMockResponse 200
        (.obj [("localidade", .str "São Paulo"), ("erro", .str "true")])), none))
      "00000000").reply = some ⟨404, .error ⟨"can not find zipcode"⟩⟩ :=
  ⟨by decide,
    (C3_flag_or_empty_locality_not_found false testRuntime erroString
      (NewWeatherForecast (mockHTTPClient (some (createMockResponse 200
        (.obj [("localidade", .str "São Paulo"), ("erro", .str "true")])), none)))
      "00000000"
      (createMockResponse 200 (.obj [("localidade", .str "São Paulo"), ("erro", .str "true")]))
      ⟨"São Paulo", "true"⟩ (by decide) rfl (by decide) (Or.inl (by decide))).2⟩

/-- C4, refuted as stated: the temperature service can return the reading 1e308
without error (it is a finite float64), and for it `temp_F` overflows to an
infinity, which the JSON encoder refuses: `WeatherHandler` writes status 200
and no body, so there is no result with the fields `c`, `c * 1.8 + 32` and
`c + 273`. Moreover `temp_F` depends on whether the target fuses the
multiply-add: at the reading 13 the two evaluations of `c * 1.8 + 32` differ. -/
theorem C4_overflowing_reading_has_no_result :
    ValidPostalCode "01310100" ∧
    GetWeather testRuntime
      (NewWeatherForecast (mockHTTPClient (some (createMockResponse 200
        (.obj [("current", .obj [("temp_c", .num 1e308)])])), none)))
      "São Paulo" = some (1e308, none) ∧
    (1e308 : Float64) * 1.8 + 32 = Float64.inf false ∧
    (WeatherHandler false (mockWeatherService ("São Paulo", none) (1e308, none))
      "01310100").reply = some ⟨200, .empty⟩ ∧
    (WeatherHandler true (mockWeatherService ("São Paulo", none) (1e308, none))
      "01310100").reply = some ⟨200, .empty⟩ ∧
    (WeatherHandler false (mockWeatherService ("São Paulo", none) (1e308, none))
      "01310100").reply ≠
        some ⟨200, .weather
          { TempC := 1e308, TempF := 1e308 * 1.8 + 32, TempK := 1e308 + 273 }⟩ ∧
    (WeatherHandler true (mockWeatherService ("São Paulo", none) (13, none))
      "01310100").reply ≠
        (WeatherHandler false (mockWeatherService ("São Paulo", none) (13, none))
          "01310100").reply :=
  ⟨by decide, by decide!, by decide!, by decide!, by decide!, by decide!, by decide!⟩

/-- C4, amended: for every valid postal code whose locality resolves without
error and every Celsius reading `c` that `GetWeather` returns without error, if
`c`, `c * 1.8 + 32` and `c + 273` are finite float64 values, `WeatherHandler`
answers with status 200 and a result whose fields are `temp_C = c`,
`temp_F = c * 1.8 + 32` (the product and the sum each rounded, or rounded once
on a target that fuses them) and `temp_K = c + 273`. -/
theorem C4_success_fields_when_finite (fused : Bool) (swf : WeatherForecast)
    (cep city : String) (c : Float64)
    (hv : ValidPostalCode cep) (hc : swf.GetCityByCEP cep = some (city, none))
    (hw : swf.GetWeather city = some (c, none))
    (hC : c.isFinite = true)
    (hF : (if fused then Float64.fma c 1.8 32 else c * 1.8 + 32).isFinite = true)
    (hK : (c + 273).isFinite = true) :
    (WeatherHandler fused swf cep).reply =
      some ⟨200, .weather
        { TempC := c
          TempF := if fused then Float64.fma c 1.8 32 else c * 1.8 + 32
          TempK := c + 273 }⟩ := by
  rw [WeatherHandler_ok fused swf cep city c hv hc hw]
  have hm : Float64.mulAdd fused c 1.8 32 =
      if fused then Float64.fma c 1.8 32 else c * 1.8 + 32 := rfl
  rw [hm, encodeWeather_of_finite _ hC hF hK]
  rfl

/-- Witness of C4, amended: a reading of 30 degrees gives 86 and 303, the
latter being the offset 273 and not 273.15. -/
theorem C4_success_fields_when_finite_witness :
    ValidPostalCode "01310100" ∧
    (WeatherHandler false (mockWeatherService ("Recife", none) (30, none)) "01310100").reply =
      some ⟨200, .weather
        { TempC := 30
          TempF := if false then Float64.fma 30 1.8 32 else 30 * 1.8 + 32
          TempK := 30 + 273 }⟩ ∧
    (30 : Float64) * 1.8 + 32 = 86 ∧ (30 : Float64) + 273 = 303 ∧
    (30 : Float64) + 273 ≠ 303.15 :=
  ⟨by decide,
    C4_success_fields_when_finite false (mockWeatherService ("Recife", none) (30, none))
      "01310100" "Recife" 30 (by decide) rfl rfl (by decide!) (by decide!) (by decide!),
    by decide!, by decide!, by decide!⟩

/-- C5, refuted as stated: for the valid postal code "01310100", the locality
"São Paulo" and a reading of 25.5 degrees, `WeatherHandler` answers with status
200 and the fields 25.5, 77.9 and 298.5, on either kind of target; the
Fahrenheit field is not 77.3. -/
theorem C5_fahrenheit_of_25_5_not_77_3 :
    ValidPostalCode "01310100" ∧
    (mockWeatherService ("São Paulo", none) (25.5, none)).GetCityByCEP "01310100" =
      some ("São Paulo", none) ∧
    (mockWeatherService ("São Paulo", none) (25.5, none)).GetWeather "São Paulo" =
      some (25.5, none) ∧
    (WeatherHandler false (mockWeatherService ("São Paulo", none) (25.5, none))
      "01310100").reply =
      some ⟨200, .weather { TempC := 25.5, TempF := 77.9, TempK := 298.5 }⟩ ∧
    (WeatherHandler true (mockWeatherService ("São Paulo", none) (25.5, none))
      "01310100").reply =
      some ⟨200, .weather { TempC := 25.5, TempF := 77.9, TempK := 298.5 }⟩ ∧
    (WeatherHandler false (mockWeatherService ("São Paulo", none) (25.5, none))
      "01310100").reply ≠
      some ⟨200, .weather { TempC := 25.5, TempF := 77.3, TempK := 298.5 }⟩ ∧
    (WeatherHandler true (mockWeatherService ("São Paulo", none) (25.5, none))
      "01310100").reply ≠
      some ⟨200, .weather { TempC := 25.5, TempF := 77.3, TempK := 298.5 }⟩ :=
  ⟨by decide, rfl, rfl, by decide!, by decide!, by decide!, by decide!⟩

/-- C5, amended: for a valid postal code whose locality resolves and whose
temperature service returns 25.5 degrees Celsius, `WeatherHandler` answers with
status 200 and the body with `temp_C` 25.5, `temp_F` 77.9 and `temp_K` 298.5,
whether or not the target fuses the multiply-add. -/
theorem C5_reading_25_5 (fused : Bool) (swf : WeatherForecast) (cep city : String)
    (hv : ValidPostalCode cep) (hc : swf.GetCityByCEP cep = some (city, none))
    (hw : swf.GetWeather city = some (25.5, none)) :
    (WeatherHandler fused swf cep).reply =
      some ⟨200, .weather { TempC := 25.5, TempF := 77.9, TempK := 298.5 }⟩ := by
  rw [WeatherHandler_ok fused swf cep city 25.5 hv hc hw]
  have hF : Float64.mulAdd fused 25.5 1.8 32 = 77.9 := by
    cases fused
    · decide!
    · decide!
  have hK : (25.5 : Float64) + 273 = 298.5 := by decide!
  have hE : encodeWeather ⟨25.5, 77.9, 298.5⟩ = .weather ⟨25.5, 77.9, 298.5⟩ := by decide!
  simp only [hF, hK, hE]
  rfl

/-- Witness of C5, amended: the mock service of `TestCEPOk`. -/
theorem C5_reading_25_5_witness :
    ValidPostalCode "70040010" ∧
    (WeatherHandler false (mockWeatherService ("Brasília", none) (25.5, none))
      "70040010").reply =
      some ⟨200, .weather { TempC := 25.5, TempF := 77.9, TempK := 298.5 }⟩ :=
  ⟨by decide,
    C5_reading_25_5 false (mockWeatherService ("Brasília", none) (25.5, none)) "70040010"
      "Brasília" (by decide) rfl rfl⟩

/-- C6: for every string that is not a valid postal code `WeatherHandler` makes
no service call at all, and for every valid postal code for which
`GetCityByCEP` returns an error the only call made is that one: `GetWeather`
is never invoked. -/
theorem C6_stops_at_first_failure (fused : Bool) (swf : WeatherForecast) (cep : String) :
    (¬ ValidPostalCode cep → (WeatherHandler fused swf cep).calls = []) ∧
    (ValidPostalCode cep → ∀ city e, swf.GetCityByCEP cep = some (city, some e) →
      (WeatherHandler fused swf cep).calls = [.GetCityByCEP cep] ∧
      ∀ c, Call.GetWeather c ∉ (WeatherHandler fused swf cep).calls) := by
  constructor
  · intro hv
    rw [WeatherHandler_invalid fused swf cep hv]
  · intro hv city e hc
    rw [WeatherHandler_cityError fused swf cep city e hv hc]
    simp

/-- Witness of C6: the input "123" of `TestInvalidCEP`, and the postal code
"12345678" over the failing service of `TestCEPNotFound`. -/
theorem C6_stops_at_first_failure_witness :
    (¬ ValidPostalCode "123" ∧
      (WeatherHandler false (mockWeatherService ("São Paulo", none) (25.5, none)) "123").calls = []) ∧
    (ValidPostalCode "12345678" ∧
      (WeatherHandler false (mockWeatherService ("", some ⟨"not found"⟩) (25.5, none))
        "12345678").calls = [.GetCityByCEP "12345678"]) :=
  ⟨⟨by decide,
      (C6_stops_at_first_failure false (mockWeatherService ("São Paulo", none) (25.5, none))
        "123").1 (by decide)⟩,
    ⟨by decide,
      ((C6_stops_at_first_failure false (mockWeatherService ("", some ⟨"not found"⟩) (25.5, none))
        "12345678").2 (by decide) "" ⟨"not found"⟩ rfl).1⟩⟩

/-- C7: for every valid postal code whose locality resolves without error, if
`GetWeather` returns an error then `WeatherHandler` answers with status 500 and
the plain-text message "failed to fetch weather" and with no temperature
payload; that message is neither the message of an invalid input nor the
message of a location that was not found. -/
theorem C7_weather_failure_is_500 (fused : Bool) (swf : WeatherForecast) (cep city : String)
    (t : Float64) (e : GoError)
    (hv : ValidPostalCode cep) (hc : swf.GetCityByCEP cep = some (city, none))
    (hw : swf.GetWeather city = some (t, some e)) :
    (WeatherHandler fused swf cep).reply = some ⟨500, .text "failed to fetch weather"⟩ ∧
    (∀ status r, (WeatherHandler fused swf cep).reply ≠ some ⟨status, .weather r⟩) ∧
    "failed to fetch weather" ≠ "invalid zipcode" ∧
    "failed to fetch weather" ≠ "can not find zipcode" := by
  have h := WeatherHandler_weatherError fused swf cep city t e hv hc hw
  refine ⟨by rw [h]; rfl, ?_, by decide, by decide⟩
  intro status r
  rw [h]
  simp [httpError]

/-- Witness of C7: the mock service of `TestWeatherAPIError`. -/
theorem C7_weather_failure_is_500_witness :
    ValidPostalCode "01310100" ∧
    (WeatherHandler false (mockWeatherService ("São Paulo", none) (0, some ⟨"weather API error"⟩))
      "01310100").reply = some ⟨500, .text "failed to fetch weather"⟩ :=
  ⟨by decide,
    (C7_weather_failure_is_500 false
      (mockWeatherService ("São Paulo", none) (0, some ⟨"weather API error"⟩))
      "01310100" "São Paulo" 0 ⟨"weather API error"⟩ (by decide) rfl rfl).1⟩

/-- C8, refuted as stated: a body that is the JSON array `[]`, or the object
whose member `current` is the string "x", is well-formed JSON without a `temp_c`
nested in `current`, and yet `GetWeather` returns the temperature 0 together
with an error, the value not fitting the struct it is decoded into. -/
theorem C8_json_that_does_not_fit_is_an_error :
    hasCurrentTempC (.arr []) = false ∧
    (∃ e, GetWeather testRuntime
      (NewWeatherForecast (mockHTTPClient (some (createMockResponse 401 (.arr [])), none)))
      "São Paulo" = some (0, some e)) ∧
    GetWeather testRuntime
      (NewWeatherForecast (mockHTTPClient (some (createMockResponse 401 (.arr [])), none)))
      "São Paulo" ≠ some (0, none) ∧
    hasCurrentTempC (.obj [("current", .str "x")]) = false ∧
    (∃ e, GetWeather testRuntime
      (NewWeatherForecast (mockHTTPClient
        (some (createMockResponse 401 (.obj [("current", .str "x")])), none)))
      "São Paulo" = some (0, some e)) ∧
    GetWeather testRuntime
      (NewWeatherForecast (mockHTTPClient
        (some (createMockResponse 401 (.obj [("current", .str "x")])), none)))
      "São Paulo" ≠ some (0, none) :=
  ⟨by decide, ⟨_, rfl⟩, by decide, by decide, ⟨_, rfl⟩, by decide⟩

/-- C8, amended: for every locality and every upstream status code, if the
request to the temperature service succeeds and its body is a JSON value that
decodes into the response struct without error, then
`GetWeather` returns the decoded `current.temp_c` as it is, with no error,
whatever the status code; when the document has no `temp_c` nested in
`current`, the result is the temperature 0 with no error. In particular every
JSON object whose members named `current`, if any, are `null` or objects
without a member `temp_c` decodes without error and gives 0 with no error. -/
theorem C8_weather_is_decoded_field (rt : Runtime) (wf : weatherForecast) (city : String)
    (status : Int) (v : Json)
    (hget : wf.httpClient.Get
      (rt.Sprintf wf.weatherURL [rt.Getenv "WEATHER_API_KEY", rt.QueryEscape city]) =
        (some ⟨status, .json v⟩, none)) :
    (∀ data, decodeWeatherAPIResponse (.json v) ⟨⟨0⟩⟩ = .ok data →
      GetWeather rt wf city = some (data.Current.TempC, none)) ∧
    (∀ data, decodeWeatherAPIResponse (.json v) ⟨⟨0⟩⟩ = .ok data →
      hasCurrentTempC v = false → GetWeather rt wf city = some (0, none)) ∧
    (∀ ms, v = .obj ms →
      (∀ m, m ∈ ms → nameMatches "current" m.1 = true →
        m.2 = .null ∨ ∃ cs, m.2 = .obj cs ∧ ∀ c, c ∈ cs → nameMatches "temp_c" c.1 = false) →
      GetWeather rt wf city = some (0, none)) := by
  refine ⟨?_, ?_, ?_⟩
  · intro data hdec
    exact GetWeather_decoded rt wf city ⟨status, .json v⟩ data hget hdec
  · intro data hdec habsent
    rw [GetWeather_decoded rt wf city ⟨status, .json v⟩ data hget hdec,
      decodeWeatherAPIResponse_unchanged v ⟨⟨0⟩⟩ data habsent hdec]
  · intro ms hv hms
    subst hv
    exact GetWeather_decoded rt wf city ⟨status, .json (.obj ms)⟩ ⟨⟨0⟩⟩ hget
      (decodeWeatherAPIResponse_skip ms ⟨⟨0⟩⟩ hms)

/-- Witness of C8: the response of `TestGetWeather_WithoutAPIKey`, status 401
with a body holding only an `error` member, and a response with status 503
whose body carries a reading of 25.5 degrees. -/
theorem C8_weather_is_decoded_field_witness :
    GetWeather testRuntime
      (NewWeatherForecast (mockHTTPClient
        (some (createMockResponse 401 (.obj [("error", .str "unauthorized")])), none)))
      "São Paulo" = some (0, none) ∧
    GetWeather testRuntime
      (NewWeatherForecast (mockHTTPClient
        (some (createMockResponse 503 (.obj [("current", .obj [("temp_c", .num 25.5)])])),
          none)))
      "São Paulo" = some (25.5, none) :=
  ⟨(C8_weather_is_decoded_field testRuntime
      (NewWeatherForecast (mockHTTPClient
        (some (createMockResponse 401 (.obj [("error", .str "unauthorized")])), none)))
      "São Paulo" 401 (.obj [("error", .str "unauthorized")]) rfl).2.1 ⟨⟨0⟩⟩ rfl (by decide),
    (C8_weather_is_decoded_field testRuntime
      (NewWeatherForecast (mockHTTPClient
        (some (createMockResponse 503 (.obj [("current", .obj [("temp_c", .num 25.5)])])),
          none)))
      "São Paulo" 503 (.obj [("current", .obj [("temp_c", .num 25.5)])]) rfl).1
      ⟨⟨25.5⟩⟩ (by decide!)⟩

/-- C9: for every input, when the HTTP client returns an error or the response
body fails to decode, `GetCityByCEP` returns that error together with the empty
string and `GetWeather` returns that error together with the temperature 0;
and no result of either resolver carries an error together with a non-zero
value. -/
theorem C9_errors_come_with_zero_values {E : Type} (rt : Runtime) (F : ErroField E)
    (wf : weatherForecast) (s : String) :
    (∀ r e, wf.httpClient.Get (rt.Sprintf wf.viaCepURL [s]) = (r, some e) →
      GetCityByCEP rt F wf s = some ("", some e)) ∧
    (∀ resp e, wf.httpClient.Get (rt.Sprintf wf.viaCepURL [s]) = (some resp, none) →
      decodeViaCepResponse F resp.Body ⟨"", F.zero⟩ = .error e →
      GetCityByCEP rt F wf s = some ("", some e)) ∧
    (∀ r e, wf.httpClient.Get
        (rt.Sprintf wf.weatherURL [rt.Getenv "WEATHER_API_KEY", rt.QueryEscape s]) =
          (r, some e) →
      GetWeather rt wf s = some (0, some e)) ∧
    (∀ resp e, wf.httpClient.Get
        (rt.Sprintf wf.weatherURL [rt.Getenv "WEATHER_API_KEY", rt.QueryEscape s]) =
          (some resp, none) →
      decodeWeatherAPIResponse resp.Body ⟨⟨0⟩⟩ = .error e →
      GetWeather rt wf s = some (0, some e)) ∧
    (∀ city e, GetCityByCEP rt F wf s = some (city, some e) → city = "") ∧
    (∀ t e, GetWeather rt wf s = some (t, some e) → t = 0) :=
  ⟨fun r e h => GetCityByCEP_getError rt F wf s r e h,
    fun resp e h hd => GetCityByCEP_decodeError rt F wf s resp e h hd,
    fun r e h => GetWeather_getError rt wf s r e h,
    fun resp e h hd => GetWeather_decodeError rt wf s resp e h hd,
    fun city e h => GetCityByCEP_error_zero rt F wf s city e h,
    fun t e h => GetWeather_error_zero rt wf s t e h⟩

/-- Witness of C9: the failing clients of `TestGetCityByCEP_HTTPError` and
`TestGetWeather_HTTPError`, and a truncated body. -/
theorem C9_errors_come_with_zero_values_witness :
    GetCityByCEP testRuntime erroString
      (NewWeatherForecast (mockHTTPClient (none, some ⟨"network error"⟩))) "01310100" =
        some ("", some ⟨"network error"⟩) ∧
    GetCityByCEP testRuntime erroString
      (NewWeatherForecast (mockHTTPClient (some ⟨200, .malformed ⟨"unexpected EOF"⟩⟩, none)))
      "01310100" =
        some ("", some ⟨"unexpected EOF"⟩) ∧
    GetWeather testRuntime
      (NewWeatherForecast (mockHTTPClient (none, some ⟨"weather API error"⟩))) "São Paulo" =
        some (0, some ⟨"weather API error"⟩) ∧
    GetWeather testRuntime
      (NewWeatherForecast (mockHTTPClient (some ⟨200, .malformed ⟨"unexpected EOF"⟩⟩, none)))
      "São Paulo" =
        some (0, some ⟨"unexpected EOF"⟩) :=
  ⟨(C9_errors_come_with_zero_values testRuntime erroString
      (NewWeatherForecast (mockHTTPClient (none, some ⟨"network error"⟩))) "01310100").1
      none ⟨"network error"⟩ rfl,
    (C9_errors_come_with_zero_values testRuntime erroString
      (NewWeatherForecast (mockHTTPClient (some ⟨200, .malformed ⟨"unexpected EOF"⟩⟩, none)))
      "01310100").2.1
      ⟨200, .malformed ⟨"unexpected EOF"⟩⟩ ⟨"unexpected EOF"⟩ rfl rfl,
    (C9_errors_come_with_zero_values testRuntime erroString
      (NewWeatherForecast (mockHTTPClient (none, some ⟨"weather API error"⟩)))
      "São Paulo").2.2.1 none ⟨"weather API error"⟩ rfl,
    (C9_errors_come_with_zero_values testRuntime erroString
      (NewWeatherForecast (mockHTTPClient (some ⟨200, .malformed ⟨"unexpected EOF"⟩⟩, none)))
      "São Paulo").2.2.2.1 ⟨200, .malformed ⟨"unexpected EOF"⟩⟩ ⟨"unexpected EOF"⟩ rfl rfl⟩

/-- C10: for every location-service response decoded without error whose
not-found flag is unset and whose locality is non-empty, `GetCityByCEP` returns
no error and the locality exactly as decoded, and for a valid postal code
`WeatherHandler` passes exactly that string as the argument of `GetWeather`. -/
theorem C10_locality_forwarded_verbatim {E : Type} (fused : Bool) (rt : Runtime)
    (F : ErroField E)
    (wf : weatherForecast) (cep : String) (resp : Response) (data : ViaCepResponse E)
    (hget : wf.httpClient.Get (rt.Sprintf wf.viaCepURL [cep]) = (some resp, none))
    (hdec : decodeViaCepResponse F resp.Body ⟨"", F.zero⟩ = .ok data)
    (hflag : F.isTrue data.Erro = false) (hloc : data.Localidade ≠ "") :
    GetCityByCEP rt F wf cep = some (data.Localidade, none) ∧
    (ValidPostalCode cep →
      (WeatherHandler fused (wf.asInterface rt F) cep).calls =
        [.GetCityByCEP cep, .GetWeather data.Localidade]) := by
  have hc := GetCityByCEP_found rt F wf cep resp data hget hdec hflag hloc
  exact ⟨hc, fun hv =>
    WeatherHandler_calls_of_city fused (wf.asInterface rt F) cep data.Localidade hv hc⟩

/-- Witness of C10: a locality with outer blanks and mixed case is returned and
forwarded unchanged. -/
theorem C10_locality_forwarded_verbatim_witness :
    GetCityByCEP testRuntime erroString
      (NewWeatherForecast (mockHTTPClient
        (some (createMockResponse 200 (.obj [("localidade", .str "  são PAULO ")])), none)))
      "01310100" = some ("  são PAULO ", none) ∧
    (WeatherHandler false (testService
        (some (createMockResponse 200 (.obj [("localidade", .str "  são PAULO ")])), none))
      "01310100").calls = [.GetCityByCEP "01310100", .GetWeather "  são PAULO "] :=
  have h := C10_locality_forwarded_verbatim false testRuntime erroString
    (NewWeatherForecast (mockHTTPClient
      (some (createMockResponse 200 (.obj [("localidade", .str "  são PAULO ")])), none)))
    "01310100" (createMockResponse 200 (.obj [("localidade", .str "  são PAULO ")]))
    ⟨"  são PAULO ", ""⟩ rfl (by decide) (by decide) (by decide)
  ⟨h.1, h.2 (by decide)⟩

end claims

end weather_forecast
